import Mathlib

/-!
Verification of the WorldVPN core (crates/vpn-core) against its
natural-language specification.  Byte sequences are modelled as `List Nat`
(each entry a byte value), Rust machine integers as `Nat` with explicit
`% 2^w` where the source casts (`as u16`, `as u32`) truncate, and the
floating-point thresholds of the selector/abuse detector as exact rationals.
Random values drawn inside a function (padding bytes, HTTP/2 stream ids,
clock readings) are passed in as explicit parameters, so every theorem
quantifies over all random choices the source could make.
-/

namespace WorldVPN

/-! ### Obfuscation engine (src/crates/vpn-core/src/obfuscation.rs) -/

inductive ObfuscationStrategy
  | none
  | randomPadding
  | tlsWrapping
  | http2Mimicry
  | full
deriving DecidableEq

/-- Big-endian byte pair (`u16::to_be_bytes`) of a value `n < 65536`. -/
def be16 (n : Nat) : List Nat := [n / 256, n % 256]

/-- Big-endian byte quadruple (`u32::to_be_bytes`) of a value `n < 2^32`. -/
def be32 (n : Nat) : List Nat :=
  [n / 16777216 % 256, n / 65536 % 256, n / 256 % 256, n % 256]

/-- Embedding of `ObfuscationEngine::apply_random_padding`.  The random padding bytes
drawn from the engine's RNG are passed in as `pad` (its length is the
sampled `padding_size`).  `data.len() as u16` truncates, hence `% 65536`. -/
def apply_random_padding (pad : List Nat) (data : List Nat) : List Nat :=
  be16 (data.length % 65536) ++ data ++ pad

/-- Embedding of `ObfuscationEngine::remove_random_padding`. -/
def remove_random_padding (data : List Nat) : List Nat :=
  match data with
  | b0 :: b1 :: rest =>
      let original_len := b0 * 256 + b1
      if (b0 :: b1 :: rest).length < 2 + original_len then b0 :: b1 :: rest
      else rest.take original_len
  | short => short

/-- Embedding of `ObfuscationEngine::apply_tls_wrapping`: 0x17 ‖ 0x03 0x03 ‖ be16 len ‖ data. -/
def apply_tls_wrapping (data : List Nat) : List Nat :=
  0x17 :: 0x03 :: 0x03 :: (be16 (data.length % 65536) ++ data)

/-- Embedding of `ObfuscationEngine::remove_tls_wrapping`. -/
def remove_tls_wrapping (data : List Nat) : List Nat :=
  match data with
  | b0 :: b1 :: b2 :: b3 :: b4 :: rest =>
      if b0 = 0x17 ∧ b1 = 0x03 ∧ b2 = 0x03 then
        let payload_len := b3 * 256 + b4
        if (b0 :: b1 :: b2 :: b3 :: b4 :: rest).length ≥ 5 + payload_len then
          rest.take payload_len
        else b0 :: b1 :: b2 :: b3 :: b4 :: rest
      else b0 :: b1 :: b2 :: b3 :: b4 :: rest
  | short => short

/-- Embedding of `ObfuscationEngine::apply_http2_mimicry`.  The random `u32` drawn for the
stream id is passed in as `streamId`; the source computes
`(rng.gen::<u32>() | 1) & 0x7FFF_FFFF` (`& 0x7FFFFFFF` is `% 2^31`).
`data.len() as u32` truncates, and the three length bytes are
`(len >> 16) & 0xFF`, `(len >> 8) & 0xFF`, `len & 0xFF`, i.e. base-256
digits. -/
def apply_http2_mimicry (streamId : Nat) (data : List Nat) : List Nat :=
  let len := data.length % 4294967296
  let stream_id := ((streamId % 4294967296) ||| 1) % 2147483648
  (len / 65536 % 256) :: (len / 256 % 256) :: (len % 256) :: 0x00 :: 0x01 ::
    (be32 stream_id ++ data)

/-- Embedding of `ObfuscationEngine::remove_http2_mimicry`. -/
def remove_http2_mimicry (data : List Nat) : List Nat :=
  match data with
  | b0 :: b1 :: b2 :: bt :: bf :: s0 :: s1 :: s2 :: s3 :: rest =>
      let len := b0 * 65536 + b1 * 256 + b2
      if (b0 :: b1 :: b2 :: bt :: bf :: s0 :: s1 :: s2 :: s3 :: rest).length ≥ 9 + len then
        rest.take len
      else b0 :: b1 :: b2 :: bt :: bf :: s0 :: s1 :: s2 :: s3 :: rest
  | short => short

/-- Embedding of `ObfuscationEngine::obfuscate`.  `pad` and `streamId` are the random
choices made by the engine's RNG during this call. -/
def obfuscate (strategy : ObfuscationStrategy) (pad : List Nat) (streamId : Nat)
    (data : List Nat) : List Nat :=
  match strategy with
  | .none => data
  | .randomPadding => apply_random_padding pad data
  | .tlsWrapping => apply_tls_wrapping data
  | .http2Mimicry => apply_http2_mimicry streamId data
  | .full => apply_tls_wrapping (apply_random_padding pad data)

/-- Embedding of `ObfuscationEngine::deobfuscate` (uses no randomness). -/
def deobfuscate (strategy : ObfuscationStrategy) (data : List Nat) : List Nat :=
  match strategy with
  | .none => data
  | .randomPadding => remove_random_padding data
  | .tlsWrapping => remove_tls_wrapping data
  | .http2Mimicry => remove_http2_mimicry data
  | .full => remove_random_padding (remove_tls_wrapping data)

/-- Length bound under which each strategy's wire format can represent the
payload without the source's `as u16` / 3-byte-length truncation. -/
def roundTripBound (strategy : ObfuscationStrategy) (data pad : List Nat) : Prop :=
  match strategy with
  | .none => True
  | .randomPadding => data.length ≤ 65535
  | .tlsWrapping => data.length ≤ 65535
  | .http2Mimicry => data.length < 16777216
  | .full => 2 + data.length + pad.length ≤ 65535

theorem remove_apply_random_padding (pad data : List Nat) (h : data.length ≤ 65535) :
    remove_random_padding (apply_random_padding pad data) = data := by
  have hm : data.length % 65536 = data.length := Nat.mod_eq_of_lt (by omega)
  have hd : data.length / 256 * 256 + data.length % 256 = data.length := by omega
  simp only [apply_random_padding, be16, hm, List.cons_append, List.nil_append,
    remove_random_padding, hd, List.length_cons, List.length_append]
  rw [if_neg (by omega)]
  exact List.take_left data pad

theorem remove_apply_tls_wrapping (data : List Nat) (h : data.length ≤ 65535) :
    remove_tls_wrapping (apply_tls_wrapping data) = data := by
  have hm : data.length % 65536 = data.length := Nat.mod_eq_of_lt (by omega)
  have hd : data.length / 256 * 256 + data.length % 256 = data.length := by omega
  simp only [apply_tls_wrapping, be16, hm, List.cons_append, List.nil_append,
    remove_tls_wrapping, hd, List.length_cons]
  rw [if_pos (by simp), if_pos (by omega)]
  exact List.take_length data

theorem remove_apply_http2_mimicry (streamId : Nat) (data : List Nat)
    (h : data.length < 16777216) :
    remove_http2_mimicry (apply_http2_mimicry streamId data) = data := by
  have hm : data.length % 4294967296 = data.length := Nat.mod_eq_of_lt (by omega)
  have hd : data.length / 65536 % 256 * 65536 + data.length / 256 % 256 * 256
      + data.length % 256 = data.length := by omega
  simp only [apply_http2_mimicry, be32, hm, List.cons_append, List.nil_append,
    remove_http2_mimicry, hd, List.length_cons]
  rw [if_pos (by omega)]
  exact List.take_length data

theorem roundtrip_wraps_at_65536 (x : List Nat) (h : x.length = 65536) :
    deobfuscate .randomPadding (obfuscate .randomPadding [] 0 x) = [] := by
  have hobf : obfuscate .randomPadding [] 0 x = 0 :: 0 :: x := by
    simp only [obfuscate, apply_random_padding, be16, h, List.append_nil]
    norm_num
  rw [hobf]
  show remove_random_padding (0 :: 0 :: x) = []
  simp only [remove_random_padding, List.length_cons]
  rw [if_neg (by omega)]
  norm_num

/-- C1 (counterexample): at a 65536-byte input the length prefix written by
`apply_random_padding` wraps to 0 (the source casts `data.len() as u16`), so
the round trip returns the empty packet, not the original. -/
theorem obfuscation_roundtrip_cex :
    deobfuscate .randomPadding
        (obfuscate .randomPadding [] 0 (List.replicate 65536 0)) ≠
      List.replicate 65536 0 := by
  rw [roundtrip_wraps_at_65536 (List.replicate 65536 0) (by rw [List.length_replicate])]
  intro hcontra
  have hlen := congrArg List.length hcontra
  rw [List.length_nil, List.length_replicate] at hlen
  omega

/-- C1 (amended): for every strategy, every payload within the wire format's
representable length (`roundTripBound`), every random padding choice and
every random stream id, `deobfuscate (obfuscate x) = x`. -/
theorem obfuscation_roundtrip (strategy : ObfuscationStrategy)
    (pad : List Nat) (streamId : Nat) (data : List Nat)
    (h : roundTripBound strategy data pad) :
    deobfuscate strategy (obfuscate strategy pad streamId data) = data := by
  cases strategy with
  | none => rfl
  | randomPadding => exact remove_apply_random_padding pad data h
  | tlsWrapping => exact remove_apply_tls_wrapping data h
  | http2Mimicry => exact remove_apply_http2_mimicry streamId data h
  | full =>
      have hbound : 2 + data.length + pad.length ≤ 65535 := h
      show remove_random_padding
          (remove_tls_wrapping (apply_tls_wrapping (apply_random_padding pad data))) = data
      rw [remove_apply_tls_wrapping (apply_random_padding pad data)
        (by simp [apply_random_padding, be16]; omega)]
      exact remove_apply_random_padding pad data (by omega)

theorem obfuscation_roundtrip_witness :
    roundTripBound .full [1, 2, 3] [7, 8] ∧
      deobfuscate .full (obfuscate .full [7, 8] 12345 [1, 2, 3]) = [1, 2, 3] :=
  ⟨by simp [roundTripBound], obfuscation_roundtrip .full [7, 8] 12345 [1, 2, 3]
    (by simp [roundTripBound])⟩

/-- C2: for every strategy other than `None`, for every payload and every
random choice, the obfuscated output is at least as long as the input. -/
theorem obfuscate_length_ge (strategy : ObfuscationStrategy)
    (pad : List Nat) (streamId : Nat) (data : List Nat)
    (h : strategy ≠ .none) :
    data.length ≤ (obfuscate strategy pad streamId data).length := by
  cases strategy with
  | none => exact absurd rfl h
  | randomPadding => simp [obfuscate, apply_random_padding, be16]; omega
  | tlsWrapping => simp [obfuscate, apply_tls_wrapping, be16]; omega
  | http2Mimicry => simp [obfuscate, apply_http2_mimicry, be32]; omega
  | full =>
      simp [obfuscate, apply_tls_wrapping, apply_random_padding, be16]; omega

theorem obfuscate_length_ge_witness :
    ObfuscationStrategy.tlsWrapping ≠ ObfuscationStrategy.none ∧
      ([1, 2, 3] : List Nat).length ≤
        (obfuscate .tlsWrapping [] 0 [1, 2, 3]).length :=
  ⟨by decide, obfuscate_length_ge .tlsWrapping [] 0 [1, 2, 3] (by decide)⟩

/-! ### Protocol selector (src/crates/vpn-core/src/selector.rs,
src/crates/vpn-core/src/protocol.rs) -/

inductive VpnProtocol
  | wireGuard
  | wireGuardObfuscated
  | shadowsocks
  | openVpnTcp
  | openVpnUdp
  | ikev2
  | hysteria2
  | trojan
  | vless
deriving DecidableEq

inductive FirewallProfile
  | openNet
  | residential
  | corporate
  | nationalCensorship
deriving DecidableEq

inductive DeviceType
  | desktop
  | mobile
  | other
deriving DecidableEq

inductive UseCase
  | browsing
  | streaming
  | gaming
  | torrenting
  | privacy
  | antiCensorship
deriving DecidableEq

inductive CensorshipLevel
  | none
  | low
  | medium
  | high
  | extreme
deriving DecidableEq

structure NetworkQuality where
  latency_ms : Nat
  packet_loss : ℚ
  bandwidth_mbps : ℚ
  stability : ℚ
deriving DecidableEq

structure SelectionContext where
  network_quality : NetworkQuality
  firewall_profile : FirewallProfile
  user_country : String
  device_type : DeviceType
  battery_level : Option ℚ
  use_case : UseCase
deriving DecidableEq

structure ProtocolSelector where
  censored_countries : List String
deriving DecidableEq

def ProtocolSelector.new : ProtocolSelector :=
  ⟨["CN", "IR", "RU", "BY", "TM", "KP"]⟩

/-- Rust `str::to_uppercase`; the country codes compared here are ASCII, for
which it coincides with per-character ASCII uppercasing. -/
def toUppercase (s : String) : String := ⟨s.data.map Char.toUpper⟩

def ProtocolSelector.is_censored_country (self : ProtocolSelector)
    (country_code : String) : Bool :=
  self.censored_countries.contains (toUppercase country_code)

def ProtocolSelector.censorship_level (_self : ProtocolSelector)
    (country_code : String) : CensorshipLevel :=
  match toUppercase country_code with
  | "CN" | "KP" => .extreme
  | "IR" | "TM" => .high
  | "RU" | "BY" => .medium
  | _ => .low

def ProtocolSelector.select_anti_censorship_protocol (_self : ProtocolSelector) :
    CensorshipLevel → VpnProtocol
  | .none | .low => .shadowsocks
  | .medium => .wireGuardObfuscated
  | .high => .trojan
  | .extreme => .vless

/-- The inner `if let Some(battery) = battery_level { battery < 0.20 }` test
of rule 2 of `select_best_protocol`. -/
def lowBattery : Option ℚ → Bool
  | some battery => decide (battery < mkRat 20 100)
  | Option.none => false

/-- Embedding of `ProtocolSelector::select_best_protocol` (selector.rs lines 77-124): the
first-match-wins rule chain. -/
def ProtocolSelector.select_best_protocol (self : ProtocolSelector)
    (context : SelectionContext) : VpnProtocol :=
  if self.is_censored_country context.user_country then
    self.select_anti_censorship_protocol (self.censorship_level context.user_country)
  else if context.device_type = DeviceType.mobile ∧ lowBattery context.battery_level then
    VpnProtocol.ikev2
  else if context.network_quality.packet_loss > mkRat 5 100 then
    VpnProtocol.hysteria2
  else if context.firewall_profile = FirewallProfile.corporate then
    VpnProtocol.openVpnTcp
  else
    match context.use_case with
    | UseCase.gaming => VpnProtocol.wireGuard
    | UseCase.privacy => VpnProtocol.wireGuardObfuscated
    | _ => VpnProtocol.wireGuard

/-- The context used in the source's own low-battery unit test
(country FR, mobile, battery 0.15, browsing). -/
def mobileTestContext : SelectionContext :=
  { network_quality :=
      { latency_ms := 30, packet_loss := mkRat 2 100, bandwidth_mbps := 50, stability := mkRat 95 100 }
    firewall_profile := FirewallProfile.openNet
    user_country := "FR"
    device_type := DeviceType.mobile
    battery_level := some (mkRat 15 100)
    use_case := UseCase.browsing }

example : ProtocolSelector.new.select_best_protocol mobileTestContext = VpnProtocol.ikev2 := by
  decide

example : ProtocolSelector.new.select_best_protocol
    { mobileTestContext with user_country := "CN" } = VpnProtocol.vless := by decide

/-- C3: when the context's country is one of the six censored codes, the
selector ignores every other field and returns the protocol fixed by the
country's censorship level (CN/KP → VLESS, IR/TM → Trojan,
RU/BY → WireGuardObfuscated). -/
theorem select_censored_country (ctx : SelectionContext)
    (h : ctx.user_country = "CN" ∨ ctx.user_country = "IR" ∨ ctx.user_country = "RU" ∨
         ctx.user_country = "BY" ∨ ctx.user_country = "TM" ∨ ctx.user_country = "KP") :
    ProtocolSelector.new.select_best_protocol ctx =
      (if ctx.user_country = "CN" ∨ ctx.user_country = "KP" then VpnProtocol.vless
       else if ctx.user_country = "IR" ∨ ctx.user_country = "TM" then VpnProtocol.trojan
       else VpnProtocol.wireGuardObfuscated) := by
  unfold ProtocolSelector.select_best_protocol
  rcases h with h | h | h | h | h | h <;>
    rw [h] <;>
    rw [if_pos (by decide)] <;>
    decide

theorem select_censored_country_witness :
    ({ mobileTestContext with user_country := "KP" } : SelectionContext).user_country = "KP" ∧
      ProtocolSelector.new.select_best_protocol
        { mobileTestContext with user_country := "KP" } = VpnProtocol.vless := by
  refine ⟨rfl, ?_⟩
  have h := select_censored_country { mobileTestContext with user_country := "KP" }
    (by right; right; right; right; right; rfl)
  simpa using h

/-- C4: for a non-censored country, a mobile device with a known battery
level strictly below 0.20 always gets IKEv2, whatever the other fields say. -/
theorem select_mobile_low_battery (ctx : SelectionContext) (b : ℚ)
    (hcc : ProtocolSelector.new.is_censored_country ctx.user_country = false)
    (hdev : ctx.device_type = DeviceType.mobile)
    (hbat : ctx.battery_level = some b)
    (hlow : b < mkRat 20 100) :
    ProtocolSelector.new.select_best_protocol ctx = VpnProtocol.ikev2 := by
  unfold ProtocolSelector.select_best_protocol
  rw [hcc]
  simp only [Bool.false_eq_true, if_false]
  rw [if_pos ⟨hdev, by simp [hbat, lowBattery, hlow]⟩]

theorem select_mobile_low_battery_witness :
    ProtocolSelector.new.select_best_protocol
      { network_quality :=
          { latency_ms := 30, packet_loss := mkRat 10 100, bandwidth_mbps := 50,
            stability := mkRat 95 100 }
        firewall_profile := FirewallProfile.corporate
        user_country := "FR"
        device_type := DeviceType.mobile
        battery_level := some (mkRat 10 100)
        use_case := UseCase.gaming } = VpnProtocol.ikev2 :=
  select_mobile_low_battery _ (mkRat 10 100) (by decide) rfl rfl (by decide)

/-- C5: `select_best_protocol` is a deterministic pure function of the
selector and the context: identical contexts give identical protocols (the
Rust method takes `&self`, so no selector state can be mutated). -/
theorem select_deterministic (sel : ProtocolSelector) (c1 c2 : SelectionContext)
    (h : c1 = c2) :
    sel.select_best_protocol c1 = sel.select_best_protocol c2 := by
  rw [h]

theorem select_deterministic_witness :
    ProtocolSelector.new.select_best_protocol mobileTestContext =
      ProtocolSelector.new.select_best_protocol mobileTestContext :=
  select_deterministic ProtocolSelector.new mobileTestContext mobileTestContext rfl

/-- C9: country handling is case-insensitive: two country strings with the
same uppercasing (e.g. "cn" and "CN") produce the same protocol in an
otherwise identical context, for any selector. -/
theorem select_case_insensitive (sel : ProtocolSelector) (ctx : SelectionContext)
    (s t : String) (h : toUppercase s = toUppercase t) :
    sel.select_best_protocol { ctx with user_country := s } =
      sel.select_best_protocol { ctx with user_country := t } := by
  unfold ProtocolSelector.select_best_protocol ProtocolSelector.is_censored_country
    ProtocolSelector.censorship_level
  simp only [h]

theorem select_case_insensitive_witness :
    toUppercase ("cn") = toUppercase ("CN") ∧
      ProtocolSelector.new.select_best_protocol
          { mobileTestContext with user_country := "cn" } =
        ProtocolSelector.new.select_best_protocol
          { mobileTestContext with user_country := "CN" } :=
  ⟨by decide, select_case_insensitive ProtocolSelector.new mobileTestContext
    ("cn") ("CN") (by decide)⟩

/-- C10: a mobile context with unknown battery (`None`) skips the battery
rule: the selection equals that of the same context on a desktop device, and
in particular the battery rule never routes it to IKEv2. -/
theorem select_mobile_unknown_battery (ctx : SelectionContext)
    (_hdev : ctx.device_type = DeviceType.mobile)
    (hbat : ctx.battery_level = Option.none) :
    ProtocolSelector.new.select_best_protocol ctx =
        ProtocolSelector.new.select_best_protocol
          { ctx with device_type := DeviceType.desktop } ∧
      ProtocolSelector.new.select_best_protocol ctx ≠ VpnProtocol.ikev2 := by
  have hlb : lowBattery ctx.battery_level = false := by rw [hbat]; rfl
  constructor
  · unfold ProtocolSelector.select_best_protocol
    simp only [hbat, show lowBattery Option.none = false from rfl,
      Bool.false_eq_true, and_false, if_false]
  · unfold ProtocolSelector.select_best_protocol
    simp only [hlb, Bool.false_eq_true, and_false, if_false]
    split
    · unfold ProtocolSelector.select_anti_censorship_protocol
      split <;> simp
    · split
      · simp
      · split
        · simp
        · split <;> simp

theorem select_mobile_unknown_battery_witness :
    ProtocolSelector.new.select_best_protocol
        { mobileTestContext with battery_level := Option.none } =
      ProtocolSelector.new.select_best_protocol
        { mobileTestContext with battery_level := Option.none, device_type := DeviceType.desktop } ∧
    ProtocolSelector.new.select_best_protocol
        { mobileTestContext with battery_level := Option.none } ≠ VpnProtocol.ikev2 :=
  select_mobile_unknown_battery
    { mobileTestContext with battery_level := Option.none } rfl rfl

/-! ### Abuse detector (src/crates/vpn-core/src/abuse.rs)

`HashMap` is modelled as an association list with distinct keys (kept
distinct by the update operations below); `HashMap::len()` is then the list
length.  `Instant` and the wall clock are modelled as a `Nat` number of
seconds passed explicitly as `now` to each call that reads the clock.
Destination IPs and ports are modelled as `Nat`. -/

/-- Association-list lookup (`HashMap::get`). -/
def lookupA {α β : Type} [DecidableEq α] : List (α × β) → α → Option β
  | [], _ => Option.none
  | (k, v) :: rest, key => if k = key then some v else lookupA rest key

/-- Association-list insert-or-replace (`HashMap::insert` / write through
`get_mut`): replaces the value at an existing key, else appends. -/
def insertA {α β : Type} [DecidableEq α] : List (α × β) → α → β → List (α × β)
  | [], key, val => [(key, val)]
  | (k, v) :: rest, key, val =>
      if k = key then (k, val) :: rest else (k, v) :: insertA rest key val

/-- Counter bump, i.e. `*map.entry(key).or_insert(0) += 1`. -/
def bumpA {α : Type} [DecidableEq α] : List (α × Nat) → α → List (α × Nat)
  | [], key => [(key, 1)]
  | (k, v) :: rest, key =>
      if k = key then (k, v + 1) :: rest else (k, v) :: bumpA rest key

inductive AbuseType
  | trafficFlooding
  | portScanning
  | lowShareRatio
  | suspiciousConnections
  | ddosPattern
deriving DecidableEq

structure AbuseThresholds where
  max_traffic_per_minute : Nat
  max_connections_per_minute : Nat
  max_unique_ports_per_minute : Nat
  min_share_ratio : ℚ
  ban_duration_secs : Nat
deriving DecidableEq

/-- Embedding of `AbuseThresholds::default()`; `min_share_ratio` is 0.1. -/
def AbuseThresholds.default : AbuseThresholds :=
  ⟨1073741824, 1000, 100, mkRat 1 10, 3600⟩

structure UserMetrics where
  traffic_windows : List (Nat × Nat)
  contacted_ips : List (Nat × Nat)
  contacted_ports : List (Nat × Nat)
  connection_count : Nat
  last_reset : Nat
  risk_score : Nat
deriving DecidableEq

/-- Embedding of `UserMetrics::default()`, created at clock value `now`
(`last_reset: Instant::now()`). -/
def UserMetrics.defaultAt (now : Nat) : UserMetrics := ⟨[], [], [], 0, now, 0⟩

structure AbuseEvent where
  user_id : String
  abuse_type : AbuseType
  severity : Nat
  timestamp : Nat
  details : String
deriving DecidableEq

structure AbuseDetector where
  thresholds : AbuseThresholds
  user_metrics : List (String × UserMetrics)
  banned_users : List (String × Nat)
  abuse_events : List AbuseEvent
deriving DecidableEq

def AbuseDetector.new (thresholds : AbuseThresholds) : AbuseDetector :=
  ⟨thresholds, [], [], []⟩

/-- Embedding of `AbuseDetector::ban_user`: ban until `now + ban_duration_secs`. -/
def AbuseDetector.ban_user (self : AbuseDetector) (now : Nat) (user_id : String) :
    AbuseDetector :=
  { self with
    banned_users := insertA self.banned_users user_id (now + self.thresholds.ban_duration_secs) }

/-- Embedding of `AbuseDetector::report_abuse`: append the event, ban on severity ≥ 8,
and — only when the user already has a metrics entry — clamp-add
`severity * 10` to the risk score (the source's `if let Some(metrics) =
self.user_metrics.get_mut(user_id)`). -/
def AbuseDetector.report_abuse (self : AbuseDetector) (now : Nat) (user_id : String)
    (abuse_type : AbuseType) (severity : Nat) (details : String) : AbuseDetector :=
  let event : AbuseEvent := ⟨user_id, abuse_type, severity, now, details⟩
  let self1 := { self with abuse_events := self.abuse_events ++ [event] }
  let self2 := if severity ≥ 8 then self1.ban_user now user_id else self1
  match lookupA self2.user_metrics user_id with
  | some metrics =>
      { self2 with
        user_metrics := insertA self2.user_metrics user_id
          { metrics with risk_score := min (metrics.risk_score + severity * 10) 100 } }
  | Option.none => self2

/-- Embedding of `AbuseDetector::record_traffic`. -/
def AbuseDetector.record_traffic (self : AbuseDetector) (now : Nat) (user_id : String)
    (bytes : Nat) : AbuseDetector :=
  let metrics := (lookupA self.user_metrics user_id).getD (UserMetrics.defaultAt now)
  let windows := (metrics.traffic_windows ++ [(now, bytes)]).filter
    fun sample => now - sample.1 < 60
  let self1 := { self with
    user_metrics := insertA self.user_metrics user_id { metrics with traffic_windows := windows } }
  let total_traffic := (windows.map Prod.snd).sum
  if total_traffic > self.thresholds.max_traffic_per_minute then
    self1.report_abuse now user_id AbuseType.trafficFlooding 8
      ("Excessive traffic: " ++ toString total_traffic ++ " bytes/min")
  else self1

/-- Embedding of `AbuseDetector::record_connection`. -/
def AbuseDetector.record_connection (self : AbuseDetector) (now : Nat)
    (user_id : String) (dest_ip : Nat) (dest_port : Nat) : AbuseDetector :=
  let metrics0 := (lookupA self.user_metrics user_id).getD (UserMetrics.defaultAt now)
  let metrics1 :=
    if now - metrics0.last_reset > 60 then
      { metrics0 with
        contacted_ips := [], contacted_ports := [], connection_count := 0, last_reset := now }
    else metrics0
  let metrics2 := { metrics1 with
      contacted_ips := bumpA metrics1.contacted_ips dest_ip,
      contacted_ports := bumpA metrics1.contacted_ports dest_port,
      connection_count := metrics1.connection_count + 1 }
  let self1 := { self with user_metrics := insertA self.user_metrics user_id metrics2 }
  let num_ports := metrics2.contacted_ports.length
  let num_connections := metrics2.connection_count
  let self2 :=
    if num_ports > self.thresholds.max_unique_ports_per_minute then
      self1.report_abuse now user_id AbuseType.portScanning 9
        ("Port scan detected: " ++ toString num_ports ++ " unique ports")
    else self1
  if num_connections > self.thresholds.max_connections_per_minute then
    self2.report_abuse now user_id AbuseType.suspiciousConnections 7
      ("Excessive connections: " ++ toString num_connections ++ " connections")
  else self2

/-- Embedding of `AbuseDetector::check_share_ratio`.  The `f64` ratio `shared / consumed`
is modelled exactly as the rational `mkRat shared consumed` (the details
string elides the source's `{:.2}` float formatting). -/
def AbuseDetector.check_share_ratio (self : AbuseDetector) (now : Nat)
    (user_id : String) (shared_bytes consumed_bytes : Nat) : AbuseDetector :=
  if consumed_bytes = 0 then self
  else
    let ratio : ℚ := mkRat shared_bytes consumed_bytes
    if ratio < self.thresholds.min_share_ratio then
      self.report_abuse now user_id AbuseType.lowShareRatio 5 "Low share ratio"
    else self

/-- Embedding of `AbuseDetector::detect_ddos_pattern`. -/
def AbuseDetector.detect_ddos_pattern (self : AbuseDetector) (now : Nat)
    (user_id : String) : Bool × AbuseDetector :=
  match lookupA self.user_metrics user_id with
  | Option.none => (false, self)
  | some metrics =>
      let unique_ips := metrics.contacted_ips.length
      let total_traffic := (metrics.traffic_windows.map Prod.snd).sum
      if unique_ips > 50 ∧ total_traffic > 524288000 then
        (true, self.report_abuse now user_id AbuseType.ddosPattern 10
          ("DDoS pattern detected: " ++ toString unique_ips ++ " IPs, "
            ++ toString total_traffic ++ " bytes"))
      else (false, self)

/-- Embedding of `AbuseDetector::get_risk_score`. -/
def AbuseDetector.get_risk_score (self : AbuseDetector) (user_id : String) : Nat :=
  ((lookupA self.user_metrics user_id).map UserMetrics.risk_score).getD 0

example :
    ((AbuseDetector.new AbuseThresholds.default).check_share_ratio 0 "u" 0 1).abuse_events.length
      = 1 := by decide

theorem lookupA_insertA_self {α β : Type} [DecidableEq α] (l : List (α × β))
    (k : α) (v : β) : lookupA (insertA l k v) k = some v := by
  induction l with
  | nil => simp [insertA, lookupA]
  | cons p rest ih =>
      obtain ⟨k', v'⟩ := p
      by_cases h : k' = k
      · simp [insertA, h, lookupA]
      · simp [insertA, h, lookupA, ih]

theorem report_abuse_events (d : AbuseDetector) (now : Nat) (uid : String)
    (t : AbuseType) (sev : Nat) (det : String) :
    (d.report_abuse now uid t sev det).abuse_events =
      d.abuse_events ++ [⟨uid, t, sev, now, det⟩] := by
  unfold AbuseDetector.report_abuse AbuseDetector.ban_user
  by_cases h8 : sev ≥ 8 <;>
    cases hm : lookupA d.user_metrics uid <;>
    simp [h8, hm]

theorem lookupA_report_abuse_user_metrics (d : AbuseDetector) (now : Nat)
    (uid : String) (t : AbuseType) (sev : Nat) (det : String) :
    lookupA (d.report_abuse now uid t sev det).user_metrics uid =
      (lookupA d.user_metrics uid).map
        (fun m => { m with risk_score := min (m.risk_score + sev * 10) 100 }) := by
  unfold AbuseDetector.report_abuse AbuseDetector.ban_user
  by_cases h8 : sev ≥ 8 <;>
    cases hm : lookupA d.user_metrics uid <;>
    simp [h8, hm, lookupA_insertA_self]

theorem report_abuse_banned (d : AbuseDetector) (now : Nat) (uid : String)
    (t : AbuseType) (sev : Nat) (det : String) (h8 : sev ≥ 8) :
    lookupA (d.report_abuse now uid t sev det).banned_users uid =
      some (now + d.thresholds.ban_duration_secs) := by
  unfold AbuseDetector.report_abuse AbuseDetector.ban_user
  cases hm : lookupA d.user_metrics uid <;>
    simp [h8, hm, lookupA_insertA_self]

/-- C6 (counterexample): `check_share_ratio` on a user with no metrics entry
emits a LowShareRatio event (severity 5) but leaves the risk score at 0
instead of raising it to `min (0 + 5 * 10) 100 = 50`, because `report_abuse`
only updates the score under `if let Some(metrics) = ... get_mut(...)`. -/
theorem abuse_event_effects_cex :
    ((AbuseDetector.new AbuseThresholds.default).check_share_ratio 0 "u" 0 1).abuse_events.length
        = 1 ∧
      ((AbuseDetector.new AbuseThresholds.default).check_share_ratio 0 "u" 0 1).get_risk_score ("u")
        = 0 ∧
      ((AbuseDetector.new AbuseThresholds.default).check_share_ratio 0 "u" 0 1).get_risk_score ("u")
        ≠ min (0 + 5 * 10) 100 :=
  ⟨by decide, by decide, by decide⟩

/-- C6 (amended): every event emission (all of them go through
`report_abuse`) appends the event to the history log and, when severity ≥ 8,
bans the user until `now + ban_duration_secs`; the risk score is increased by
`severity * 10` clamped to 100 when the user has a metrics entry, and is left
unchanged when the user has none (possible only via `check_share_ratio`,
since `record_traffic`/`record_connection` create the entry first and
`detect_ddos_pattern` emits only for tracked users). -/
theorem abuse_event_effects (d : AbuseDetector) (now : Nat) (uid : String)
    (t : AbuseType) (sev : Nat) (det : String) :
    (d.report_abuse now uid t sev det).abuse_events =
        d.abuse_events ++ [⟨uid, t, sev, now, det⟩] ∧
      (∀ m, lookupA d.user_metrics uid = some m →
        (d.report_abuse now uid t sev det).get_risk_score uid =
          min (m.risk_score + sev * 10) 100) ∧
      (lookupA d.user_metrics uid = Option.none →
        (d.report_abuse now uid t sev det).get_risk_score uid = d.get_risk_score uid) ∧
      (sev ≥ 8 → lookupA (d.report_abuse now uid t sev det).banned_users uid =
        some (now + d.thresholds.ban_duration_secs)) := by
  refine ⟨report_abuse_events d now uid t sev det, ?_, ?_, report_abuse_banned d now uid t sev det⟩
  · intro m hm
    unfold AbuseDetector.get_risk_score
    rw [lookupA_report_abuse_user_metrics, hm]
    rfl
  · intro hm
    unfold AbuseDetector.get_risk_score
    rw [lookupA_report_abuse_user_metrics, hm]
    rfl

theorem abuse_event_effects_witness :
    ((AbuseDetector.new AbuseThresholds.default).report_abuse 5 "u"
        AbuseType.portScanning 9 "x").abuse_events =
      [⟨"u", AbuseType.portScanning, 9, 5, "x"⟩] ∧
    ((AbuseDetector.new AbuseThresholds.default).report_abuse 5 "u"
        AbuseType.portScanning 9 "x").get_risk_score ("u") = 0 ∧
    lookupA ((AbuseDetector.new AbuseThresholds.default).report_abuse 5 "u"
        AbuseType.portScanning 9 "x").banned_users ("u") = some 3605 := by
  have h := abuse_event_effects (AbuseDetector.new AbuseThresholds.default) 5 "u"
    AbuseType.portScanning 9 "x"
  refine ⟨by simpa using h.1, ?_, by simpa using h.2.2.2 (by norm_num)⟩
  have h0 := h.2.2.1 rfl
  simpa using h0

/-- The per-user metrics `record_connection` works on after its
reset-window check: the user's entry (or a fresh default), with IP/port
counters and the connection counter cleared when more than 60 seconds have
elapsed since the last reset. -/
def preMetrics (d : AbuseDetector) (now : Nat) (uid : String) : UserMetrics :=
  let m0 := (lookupA d.user_metrics uid).getD (UserMetrics.defaultAt now)
  if now - m0.last_reset > 60 then
    { m0 with
      contacted_ips := [], contacted_ports := [], connection_count := 0, last_reset := now }
  else m0

theorem record_connection_eq (d : AbuseDetector) (now : Nat) (uid : String)
    (ip port : Nat) :
    d.record_connection now uid ip port =
      (let m1 := preMetrics d now uid
       let m2 := { m1 with
         contacted_ips := bumpA m1.contacted_ips ip,
         contacted_ports := bumpA m1.contacted_ports port,
         connection_count := m1.connection_count + 1 }
       let d1 := { d with user_metrics := insertA d.user_metrics uid m2 }
       let d2 :=
         if (bumpA m1.contacted_ports port).length > d.thresholds.max_unique_ports_per_minute then
           d1.report_abuse now uid AbuseType.portScanning 9
             ("Port scan detected: "
               ++ toString (bumpA m1.contacted_ports port).length ++ " unique ports")
         else d1
       if m1.connection_count + 1 > d.thresholds.max_connections_per_minute then
         d2.report_abuse now uid AbuseType.suspiciousConnections 7
           ("Excessive connections: " ++ toString (m1.connection_count + 1) ++ " connections")
       else d2) := rfl

/-- C7: `record_connection` hard-resets the per-user counters when more than
60 seconds have elapsed since the last reset, then increments the IP counter,
the port counter and the connection counter; it appends a severity-9
PortScanning event exactly when the distinct-port count exceeds
`max_unique_ports_per_minute` and a severity-7 SuspiciousConnections event
exactly when the connection count exceeds `max_connections_per_minute` — two
independent checks that can both fire on one call. -/
theorem record_connection_spec (d : AbuseDetector) (now : Nat) (uid : String)
    (ip port : Nat) :
    (∃ m', lookupA (d.record_connection now uid ip port).user_metrics uid = some m' ∧
        m'.contacted_ips = bumpA (preMetrics d now uid).contacted_ips ip ∧
        m'.contacted_ports = bumpA (preMetrics d now uid).contacted_ports port ∧
        m'.connection_count = (preMetrics d now uid).connection_count + 1 ∧
        m'.last_reset = (preMetrics d now uid).last_reset) ∧
      (d.record_connection now uid ip port).abuse_events =
        d.abuse_events
          ++ (if (bumpA (preMetrics d now uid).contacted_ports port).length >
                  d.thresholds.max_unique_ports_per_minute then
                [⟨uid, AbuseType.portScanning, 9, now,
                  "Port scan detected: "
                    ++ toString (bumpA (preMetrics d now uid).contacted_ports port).length
                    ++ " unique ports"⟩]
              else [])
          ++ (if (preMetrics d now uid).connection_count + 1 >
                  d.thresholds.max_connections_per_minute then
                [⟨uid, AbuseType.suspiciousConnections, 7, now,
                  "Excessive connections: "
                    ++ toString ((preMetrics d now uid).connection_count + 1)
                    ++ " connections"⟩]
              else []):= by
  rw [record_connection_eq]
  by_cases hPS : (bumpA (preMetrics d now uid).contacted_ports port).length >
      d.thresholds.max_unique_ports_per_minute <;>
    by_cases hSC : (preMetrics d now uid).connection_count + 1 >
        d.thresholds.max_connections_per_minute <;>
    simp [hPS, hSC, lookupA_report_abuse_user_metrics, lookupA_insertA_self,
      report_abuse_events]

/-! ### NAT traversal (src/crates/vpn-core/src/nat.rs,
src/crates/vpn-core/src/error.rs) -/

inductive ConnectionPath
  | direct
  | holePunching
  | relay
deriving DecidableEq

/-- The `VpnError` variants relevant to NAT traversal (error.rs defines
more; only `NatTraversalFailed` is produced here). -/
inductive VpnError
  | natTraversalFailed (msg : String)
deriving DecidableEq

/-- The three connection tiers, used to record which attempts were made. -/
inductive NatTier
  | direct
  | holePunch
  | relay
deriving DecidableEq

/-- Embedding of `NatTraversal::establish_connection` (nat.rs lines 38-62).  The three
tier helpers (`try_direct_connection`, `try_hole_punching`,
`try_relay_connection`) are async network operations — stubs in the current
source — so their outcomes are abstracted as `Except` parameters.  The
second component of the result records which tiers were attempted, in
order, mirroring the sequential `if let Ok(_) = ... { return ... }`
fallback chain. -/
def establish_connection (tryDirect tryHolePunching tryRelay : Except VpnError Unit) :
    Except VpnError ConnectionPath × List NatTier :=
  match tryDirect with
  | .ok _ => (.ok ConnectionPath.direct, [NatTier.direct])
  | .error _ =>
    match tryHolePunching with
    | .ok _ => (.ok ConnectionPath.holePunching, [NatTier.direct, NatTier.holePunch])
    | .error _ =>
      match tryRelay with
      | .ok _ =>
          (.ok ConnectionPath.relay, [NatTier.direct, NatTier.holePunch, NatTier.relay])
      | .error _ =>
          (.error (VpnError.natTraversalFailed ("All connection methods failed")),
           [NatTier.direct, NatTier.holePunch, NatTier.relay])

/-- The current source's `try_direct_connection` stub. -/
def try_direct_connection : Except VpnError Unit :=
  .error (VpnError.natTraversalFailed ("Not implemented"))

/-- The current source's `try_hole_punching` stub. -/
def try_hole_punching : Except VpnError Unit :=
  .error (VpnError.natTraversalFailed ("Not implemented"))

/-- The current source's `try_relay_connection` stub. -/
def try_relay_connection : Except VpnError Unit :=
  .error (VpnError.natTraversalFailed ("Not implemented"))

/-- C8: the tiers are attempted strictly in the order direct → hole punching
→ relay; the first success is returned without attempting later tiers; the
call fails — with `NatTraversalFailed` — exactly when all three tiers
fail. -/
theorem establish_connection_tiers (td th tr : Except VpnError Unit) :
    (td.isOk = true →
        establish_connection td th tr = (.ok ConnectionPath.direct, [NatTier.direct])) ∧
      (td.isOk = false → th.isOk = true →
        establish_connection td th tr =
          (.ok ConnectionPath.holePunching, [NatTier.direct, NatTier.holePunch])) ∧
      (td.isOk = false → th.isOk = false → tr.isOk = true →
        establish_connection td th tr =
          (.ok ConnectionPath.relay, [NatTier.direct, NatTier.holePunch, NatTier.relay])) ∧
      ((establish_connection td th tr).1 =
          .error (VpnError.natTraversalFailed ("All connection methods failed")) ↔
        td.isOk = false ∧ th.isOk = false ∧ tr.isOk = false) := by
  cases td <;> cases th <;> cases tr <;>
    simp [establish_connection, Except.isOk, Except.toBool]

theorem establish_connection_tiers_witness :
    establish_connection (Except.ok ()) try_hole_punching try_relay_connection =
        (.ok ConnectionPath.direct, [NatTier.direct]) ∧
      (establish_connection try_direct_connection try_hole_punching
          try_relay_connection).1 =
        .error (VpnError.natTraversalFailed ("All connection methods failed")) := by
  constructor
  · exact (establish_connection_tiers (Except.ok ()) try_hole_punching
      try_relay_connection).1 rfl
  · exact (establish_connection_tiers try_direct_connection try_hole_punching
      try_relay_connection).2.2.2.mpr ⟨rfl, rfl, rfl⟩

end WorldVPN
